import Mathlib

/-!
Verification of the flowshare-v2 Allocation & Reconciliation Engine.

This file is a shallow embedding, over the rational numbers, of:
  - backend/agents/accountant/allocation_engine.py  (class AllocationEngine),
  - backend/agents/accountant/main.py               (perform_reconciliation),
  - the relevant record models from backend/shared/models.

Python floats are modelled as rationals (exact arithmetic); Python
exceptions (ValueError raised by the correction functions, the broad
exception handling of the orchestrator) are modelled with Except/explicit
outcome values.  The dataclass field intermediate_calculations, a dict with
three fixed keys, is modelled as three explicit fields.
-/

/-- Embeds the dataclass ProductionData of allocation_engine.py. -/
structure ProductionData where
  partner_id : String
  partner_name : String
  gross_volume : ℚ
  bsw_percent : ℚ
  temperature : ℚ
  api_gravity : ℚ
  pressure : ℚ := (14.696 : ℚ)
  meter_factor : ℚ := 1
deriving DecidableEq

/-- Embeds the dataclass AllocationResult of allocation_engine.py.  The
dict intermediate_calculations with its three keys water_volume,
total_net_standard_volume and terminal_volume is flattened into the last
three fields. -/
structure AllocationResult where
  partner_id : String
  partner_name : String
  gross_volume : ℚ
  bsw_percent : ℚ
  water_cut_factor : ℚ
  net_volume_observed : ℚ
  observed_temperature : ℚ
  standard_temperature : ℚ
  temperature_correction_factor : ℚ
  api_gravity : ℚ
  observed_specific_gravity : ℚ
  standard_specific_gravity : ℚ
  api_correction_factor : ℚ
  net_volume_standard : ℚ
  ownership_percent : ℚ
  allocated_volume : ℚ
  water_volume : ℚ
  total_net_standard_volume : ℚ
  terminal_volume : ℚ
deriving DecidableEq

/-- Embeds the constructor state of class AllocationEngine. -/
structure AllocationEngine where
  temperature_standard : ℚ := 60
  pressure_standard : ℚ := (14.696 : ℚ)
deriving DecidableEq

/-- The engine with the default constructor arguments. -/
def defaultEngine : AllocationEngine := {}

/-- Embeds AllocationEngine.calculate_specific_gravity: raises ValueError
when api_gravity <= 0, otherwise 141.5 / (api_gravity + 131.5). -/
def AllocationEngine.calculate_specific_gravity
    (_eng : AllocationEngine) (api_gravity : ℚ) : Except String ℚ :=
  if api_gravity ≤ 0 then
    .error "API Gravity must be greater than 0"
  else
    .ok ((141.5 : ℚ) / (api_gravity + (131.5 : ℚ)))

/-- Embeds AllocationEngine.calculate_water_cut_factor: raises ValueError
when bsw_percent is outside [0, 100], otherwise 1 - bsw_percent / 100. -/
def AllocationEngine.calculate_water_cut_factor
    (_eng : AllocationEngine) (bsw_percent : ℚ) : Except String ℚ :=
  if 0 ≤ bsw_percent ∧ bsw_percent ≤ 100 then
    .ok (1 - bsw_percent / 100)
  else
    .error "BSW% must be between 0 and 100"

/-- Embeds AllocationEngine.calculate_net_observed_volume. -/
def AllocationEngine.calculate_net_observed_volume
    (_eng : AllocationEngine) (gross_volume water_cut_factor : ℚ) : ℚ :=
  gross_volume * water_cut_factor

/-- Embeds AllocationEngine.calculate_temperature_correction:
CTL = 1 - alpha * dT - beta * dT ^ 2 with coefficients tiered on the API
gravity at 50. -/
def AllocationEngine.calculate_temperature_correction
    (eng : AllocationEngine) (observed_temp api_gravity : ℚ) : ℚ :=
  let delta_t := observed_temp - eng.temperature_standard
  let alpha : ℚ := if api_gravity < 50 then (0.000347 : ℚ) else (0.000400 : ℚ)
  let beta : ℚ := (0.000002 : ℚ)
  1 - alpha * delta_t - beta * delta_t * delta_t

/-- Checked division: a Python float division raises ZeroDivisionError
when the divisor is exactly zero. -/
def divE (a b : ℚ) : Except String ℚ :=
  if b = 0 then .error "float division by zero" else .ok (a / b)

/-- Embeds AllocationEngine.calculate_api_correction: computes the
standard specific gravity, divides it by a linear temperature-effect
factor to approximate the observed specific gravity, and returns the
quotient of the two.  Each division is checked: the source raises
ZeroDivisionError when temp_effect (or the derived sg_observed) is
exactly zero, which happens at observed_temp = temperature_standard -
2500. -/
def AllocationEngine.calculate_api_correction
    (eng : AllocationEngine) (observed_temp api_gravity : ℚ) : Except String ℚ := do
  let sg_standard ← eng.calculate_specific_gravity api_gravity
  let temp_effect := 1 + (0.0004 : ℚ) * (observed_temp - eng.temperature_standard)
  let sg_observed ← divE sg_standard temp_effect
  divE sg_standard sg_observed

/-- Embeds AllocationEngine.calculate_net_standard_volume. -/
def AllocationEngine.calculate_net_standard_volume
    (_eng : AllocationEngine)
    (net_observed_volume temperature_correction api_correction : ℚ) : ℚ :=
  net_observed_volume * temperature_correction * api_correction

/-- One element of the intermediate results list built by the first loop of
AllocationEngine.allocate_volumes (the per-partner working dict). -/
structure PartnerCalc where
  data : ProductionData
  water_cut_factor : ℚ
  net_observed : ℚ
  temp_correction : ℚ
  api_correction : ℚ
  net_standard : ℚ
  sg_observed : ℚ
  sg_standard : ℚ
deriving DecidableEq

/-- One iteration of the first loop of allocate_volumes (steps 1 to 4 plus
the specific-gravity audit values).  Any ValueError raised inside the loop
propagates out, exactly as in the source. -/
def AllocationEngine.processPartner
    (eng : AllocationEngine) (data : ProductionData) : Except String PartnerCalc := do
  let water_cut_factor ← eng.calculate_water_cut_factor data.bsw_percent
  let net_observed := eng.calculate_net_observed_volume data.gross_volume water_cut_factor
  let temp_correction := eng.calculate_temperature_correction data.temperature data.api_gravity
  let api_correction ← eng.calculate_api_correction data.temperature data.api_gravity
  let net_standard := eng.calculate_net_standard_volume net_observed temp_correction api_correction
  let sg_observed ← eng.calculate_specific_gravity data.api_gravity
  let sg_standard := sg_observed
  .ok ⟨data, water_cut_factor, net_observed, temp_correction, api_correction,
        net_standard, sg_observed, sg_standard⟩

/-- Error-propagating map used to embed the first loop of allocate_volumes:
the loop body may raise, in which case the whole call raises. -/
def mapE (f : α → Except String β) : List α → Except String (List β)
  | [] => .ok []
  | x :: xs => do
    let y ← f x
    let ys ← mapE f xs
    .ok (y :: ys)

/-- One iteration of the second loop of allocate_volumes (step 5: ownership
and allocation, plus assembling the AllocationResult record). -/
def AllocationEngine.mkResult
    (eng : AllocationEngine) (terminal_volume total_net_standard_volume : ℚ)
    (r : PartnerCalc) : AllocationResult :=
  let ownership_percent : ℚ :=
    if total_net_standard_volume > 0 then
      r.net_standard / total_net_standard_volume * 100
    else 0
  let allocated_volume := terminal_volume * (ownership_percent / 100)
  { partner_id := r.data.partner_id
    partner_name := r.data.partner_name
    gross_volume := r.data.gross_volume
    bsw_percent := r.data.bsw_percent
    water_cut_factor := r.water_cut_factor
    net_volume_observed := r.net_observed
    observed_temperature := r.data.temperature
    standard_temperature := eng.temperature_standard
    temperature_correction_factor := r.temp_correction
    api_gravity := r.data.api_gravity
    observed_specific_gravity := r.sg_observed
    standard_specific_gravity := r.sg_standard
    api_correction_factor := r.api_correction
    net_volume_standard := r.net_standard
    ownership_percent := ownership_percent
    allocated_volume := allocated_volume
    water_volume := r.data.gross_volume - r.net_observed
    total_net_standard_volume := total_net_standard_volume
    terminal_volume := terminal_volume }

/-- Embeds AllocationEngine.allocate_volumes.  The running accumulation of
total_net_standard_volume in the source loop equals the sum over the
collected intermediate results, taken here after the map. -/
def AllocationEngine.allocate_volumes
    (eng : AllocationEngine) (production_data : List ProductionData)
    (terminal_volume : ℚ) : Except String (List AllocationResult) := do
  let results ← mapE eng.processPartner production_data
  let total_net_standard_volume := (results.map (·.net_standard)).sum
  .ok (results.map (eng.mkResult terminal_volume total_net_standard_volume))

/-! Basic reduction lemmas for the Except monad and mapE. -/

theorem exceptBindOk (a : α) (f : α → Except String β) :
    ((Except.ok a : Except String α) >>= f) = f a := rfl

theorem exceptBindErr (e : String) (f : α → Except String β) :
    ((Except.error e : Except String α) >>= f) = .error e := rfl

theorem mapE_ok_mem {f : α → Except String β} :
    ∀ {l : List α} {ys : List β}, mapE f l = .ok ys →
      ∀ y ∈ ys, ∃ x ∈ l, f x = .ok y := by
  intro l
  induction l with
  | nil =>
    intro ys h y hy
    simp only [mapE] at h
    cases h
    simp at hy
  | cons x xs ih =>
    intro ys h y hy
    simp only [mapE] at h
    cases hfx : f x with
    | error e => rw [hfx, exceptBindErr] at h; cases h
    | ok y₀ =>
      rw [hfx, exceptBindOk] at h
      cases hm : mapE f xs with
      | error e => rw [hm, exceptBindErr] at h; cases h
      | ok ys₀ =>
        rw [hm, exceptBindOk] at h
        cases h
        rcases List.mem_cons.mp hy with hEq | hMem
        · exact ⟨x, List.mem_cons_self _ _, hEq ▸ hfx⟩
        · obtain ⟨x₀, hx₀, hfx₀⟩ := ih hm y hMem
          exact ⟨x₀, List.mem_cons_of_mem _ hx₀, hfx₀⟩

theorem bindOk {α β : Type} {x : Except String α} {f : α → Except String β}
    {b : β} (h : (x >>= f) = .ok b) : ∃ a, x = .ok a ∧ f a = .ok b := by
  cases x with
  | error e => rw [exceptBindErr] at h; exact Except.noConfusion h
  | ok a => rw [exceptBindOk] at h; exact ⟨a, rfl, h⟩

/-! Inversion lemmas for the allocation pipeline. -/

theorem AllocationEngine.allocate_inv {eng : AllocationEngine}
    {l : List ProductionData} {t : ℚ} {rs : List AllocationResult}
    (h : eng.allocate_volumes l t = .ok rs) :
    ∃ cs, mapE eng.processPartner l = .ok cs ∧
      rs = cs.map (eng.mkResult t ((cs.map (·.net_standard)).sum)) := by
  unfold AllocationEngine.allocate_volumes at h
  cases hm : mapE eng.processPartner l with
  | error e => rw [hm, exceptBindErr] at h; cases h
  | ok cs =>
    rw [hm, exceptBindOk] at h
    cases h
    exact ⟨cs, rfl, rfl⟩

theorem AllocationEngine.sg_inv {eng : AllocationEngine} {a v : ℚ}
    (h : eng.calculate_specific_gravity a = .ok v) :
    0 < a ∧ v = (141.5 : ℚ) / (a + (131.5 : ℚ)) := by
  unfold AllocationEngine.calculate_specific_gravity at h
  by_cases ha : a ≤ 0
  · rw [if_pos ha] at h
    exact Except.noConfusion h
  · rw [if_neg ha] at h
    cases h
    exact ⟨not_le.mp ha, rfl⟩

theorem AllocationEngine.wcf_inv {eng : AllocationEngine} {b v : ℚ}
    (h : eng.calculate_water_cut_factor b = .ok v) :
    0 ≤ b ∧ b ≤ 100 := by
  unfold AllocationEngine.calculate_water_cut_factor at h
  by_cases hb : 0 ≤ b ∧ b ≤ 100
  · exact hb
  · rw [if_neg hb] at h
    exact Except.noConfusion h

theorem AllocationEngine.processPartner_spec {eng : AllocationEngine}
    {d : ProductionData} {c : PartnerCalc}
    (h : eng.processPartner d = .ok c) :
    c.data = d ∧ c.sg_standard = c.sg_observed ∧
      c.sg_observed = (141.5 : ℚ) / (d.api_gravity + (131.5 : ℚ)) ∧
      0 < d.api_gravity ∧ 0 ≤ d.bsw_percent ∧ d.bsw_percent ≤ 100 := by
  unfold AllocationEngine.processPartner at h
  obtain ⟨wcf, hw, h⟩ := bindOk h
  obtain ⟨ac, hac, h⟩ := bindOk h
  obtain ⟨sgo, hsg, h⟩ := bindOk h
  cases h
  obtain ⟨hb1, hb2⟩ := AllocationEngine.wcf_inv hw
  obtain ⟨hapos, hval⟩ := AllocationEngine.sg_inv hsg
  exact ⟨rfl, rfl, hval, hapos, hb1, hb2⟩

/-! Projection lemmas for mkResult. -/

theorem AllocationEngine.mkResult_ownership (eng : AllocationEngine)
    (t T : ℚ) (c : PartnerCalc) :
    (eng.mkResult t T c).ownership_percent =
      if T > 0 then c.net_standard / T * 100 else 0 := rfl

theorem AllocationEngine.mkResult_allocated (eng : AllocationEngine)
    (t T : ℚ) (c : PartnerCalc) :
    (eng.mkResult t T c).allocated_volume =
      t * ((eng.mkResult t T c).ownership_percent / 100) := rfl

theorem AllocationEngine.mkResult_nvs (eng : AllocationEngine)
    (t T : ℚ) (c : PartnerCalc) :
    (eng.mkResult t T c).net_volume_standard = c.net_standard := rfl

/-- The sum of recorded net standard volumes equals the pool total used by
the second loop of allocate_volumes. -/
theorem AllocationEngine.nvs_sum {eng : AllocationEngine}
    {t : ℚ} {rs : List AllocationResult} {cs : List PartnerCalc}
    (hrs : rs = cs.map (eng.mkResult t ((cs.map (·.net_standard)).sum))) :
    (rs.map (·.net_volume_standard)).sum = (cs.map (·.net_standard)).sum := by
  subst hrs
  rw [List.map_map]
  congr 1

/-- With a positive pool total, the ownership percentages sum to exactly
100 in rational arithmetic. -/
theorem AllocationEngine.ownership_sum {eng : AllocationEngine}
    {l : List ProductionData} {t : ℚ} {rs : List AllocationResult}
    (h : eng.allocate_volumes l t = .ok rs)
    (hpos : 0 < (rs.map (·.net_volume_standard)).sum) :
    (rs.map (·.ownership_percent)).sum = 100 := by
  obtain ⟨cs, _, hrs⟩ := AllocationEngine.allocate_inv h
  have hT := AllocationEngine.nvs_sum hrs
  set T := (cs.map (·.net_standard)).sum with hTdef
  rw [hT] at hpos
  subst hrs
  rw [List.map_map]
  have hmap : ∀ c : PartnerCalc,
      ((·.ownership_percent) ∘ eng.mkResult t T) c = c.net_standard * (100 / T) := by
    intro c
    simp only [Function.comp, AllocationEngine.mkResult_ownership, if_pos hpos]
    ring
  rw [List.map_congr_left fun c _ => hmap c, List.sum_map_mul_right, ← hTdef]
  rw [mul_comm, div_mul_cancel₀]
  exact ne_of_gt hpos

/-- With a zero pool total, every ownership percentage and allocated
volume is zero. -/
theorem AllocationEngine.zero_pool {eng : AllocationEngine}
    {l : List ProductionData} {t : ℚ} {rs : List AllocationResult}
    (h : eng.allocate_volumes l t = .ok rs)
    (hzero : (rs.map (·.net_volume_standard)).sum = 0) :
    ∀ r ∈ rs, r.ownership_percent = 0 ∧ r.allocated_volume = 0 := by
  obtain ⟨cs, _, hrs⟩ := AllocationEngine.allocate_inv h
  have hT := AllocationEngine.nvs_sum hrs
  rw [hT] at hzero
  subst hrs
  intro r hr
  obtain ⟨c, _, hc⟩ := List.mem_map.mp hr
  subst hc
  constructor
  · rw [AllocationEngine.mkResult_ownership, hzero]
    simp
  · rw [AllocationEngine.mkResult_allocated, AllocationEngine.mkResult_ownership, hzero]
    simp

/-! Concrete sample input (spec Scenario A: one partner, gross 1000 bbl,
BSW 0, temperature 60 F, API 35, terminal 1000 bbl) and its evaluated
output, used as witness data. -/

def sampleData : ProductionData :=
  { partner_id := "p1", partner_name := "Partner One", gross_volume := 1000,
    bsw_percent := 0, temperature := 60, api_gravity := 35 }

def sampleResult0 : AllocationResult :=
  { partner_id := "p1", partner_name := "Partner One", gross_volume := 1000,
    bsw_percent := 0, water_cut_factor := 1, net_volume_observed := 1000,
    observed_temperature := 60, standard_temperature := 60,
    temperature_correction_factor := 1, api_gravity := 35,
    observed_specific_gravity := 283 / 333, standard_specific_gravity := 283 / 333,
    api_correction_factor := 1, net_volume_standard := 1000,
    ownership_percent := 100, allocated_volume := 1000, water_volume := 0,
    total_net_standard_volume := 1000, terminal_volume := 1000 }

def sampleResults : List AllocationResult := [sampleResult0]

/-- Scenario A evaluated: the engine output on the sample input. -/
theorem sampleAlloc_eq :
    defaultEngine.allocate_volumes [sampleData] 1000 = .ok sampleResults := by
  norm_num [defaultEngine, sampleData, sampleResults, sampleResult0,
    AllocationEngine.allocate_volumes, divE,
    mapE, AllocationEngine.processPartner, AllocationEngine.calculate_water_cut_factor,
    AllocationEngine.calculate_api_correction, AllocationEngine.calculate_specific_gravity,
    AllocationEngine.calculate_net_observed_volume,
    AllocationEngine.calculate_net_standard_volume,
    AllocationEngine.calculate_temperature_correction, AllocationEngine.mkResult,
    exceptBindOk, exceptBindErr]

/-- C1: for every input list on which allocate_volumes succeeds, if the
pool total (the sum of the per-partner net standard volumes) is positive
then the returned ownership percentages sum to 100 within 1e-6, and if the
pool total is zero then every returned ownership percentage and allocated
volume is 0. -/
theorem claim_C1_ownership_invariant (eng : AllocationEngine)
    (l : List ProductionData) (t : ℚ) (rs : List AllocationResult)
    (h : eng.allocate_volumes l t = .ok rs) :
    (0 < (rs.map (·.net_volume_standard)).sum →
      |(rs.map (·.ownership_percent)).sum - 100| ≤ 1 / 1000000) ∧
    ((rs.map (·.net_volume_standard)).sum = 0 →
      ∀ r ∈ rs, r.ownership_percent = 0 ∧ r.allocated_volume = 0) := by
  constructor
  · intro hpos
    rw [AllocationEngine.ownership_sum h hpos]
    norm_num
  · intro hzero
    exact AllocationEngine.zero_pool h hzero

/-- Witness for C1 at Scenario A: the pool total is positive and the
ownership percentages sum to 100 within 1e-6. -/
theorem claim_C1_witness :
    |(sampleResults.map (·.ownership_percent)).sum - 100| ≤ 1 / 1000000 :=
  (claim_C1_ownership_invariant defaultEngine [sampleData] 1000 sampleResults
    sampleAlloc_eq).1 (by norm_num [sampleResults, sampleResult0])

/-- C3 counterexample: allocate_volumes raises nothing on an empty reading
list (with a positive terminal volume); it returns the empty result list,
contradicting the claimed InvalidInput failure. -/
theorem claim_C3_counterexample :
    defaultEngine.allocate_volumes [] 1000 = Except.ok [] ∧
    ∀ msg, defaultEngine.allocate_volumes [] 1000 ≠ Except.error msg := by
  refine ⟨rfl, fun msg h => ?_⟩
  rw [show defaultEngine.allocate_volumes [] 1000 = Except.ok [] from rfl] at h
  exact Except.noConfusion h

/-- C3 amended: allocate_volumes performs no validation of the terminal
volume or of list emptiness: on the empty reading list it returns the
empty result list for every terminal volume (including values at most 0),
and whether the call succeeds or raises is entirely independent of the
terminal volume, which is never validated. -/
theorem claim_C3_amended (eng : AllocationEngine) (l : List ProductionData)
    (t u : ℚ) :
    eng.allocate_volumes [] t = .ok [] ∧
    (eng.allocate_volumes l t).isOk = (eng.allocate_volumes l u).isOk := by
  refine ⟨rfl, ?_⟩
  unfold AllocationEngine.allocate_volumes
  cases hm : mapE eng.processPartner l with
  | error e => rw [exceptBindErr, exceptBindErr]
  | ok cs =>
    rw [exceptBindOk, exceptBindOk]
    rfl

/-- C6 counterexample: on the empty input list with terminal volume 1000
the call succeeds with an empty result list, whose allocated volumes sum
to 0, not to the terminal volume within 1e-6. -/
theorem claim_C6_counterexample :
    defaultEngine.allocate_volumes [] 1000 = Except.ok ([] : List AllocationResult) ∧
    ¬ |(([] : List AllocationResult).map (·.allocated_volume)).sum - 1000| ≤ 1 / 1000000 := by
  refine ⟨rfl, ?_⟩
  norm_num

/-- C6 amended: whenever allocate_volumes succeeds and the pool total is
positive, the allocated volumes sum to the terminal volume within 1e-6
(exactly, in rational arithmetic). -/
theorem claim_C6_amended (eng : AllocationEngine)
    (l : List ProductionData) (t : ℚ) (rs : List AllocationResult)
    (h : eng.allocate_volumes l t = .ok rs)
    (hpos : 0 < (rs.map (·.net_volume_standard)).sum) :
    |(rs.map (·.allocated_volume)).sum - t| ≤ 1 / 1000000 := by
  obtain ⟨cs, _, hrs⟩ := AllocationEngine.allocate_inv h
  have hsum := AllocationEngine.ownership_sum h hpos
  have halloc : (rs.map (·.allocated_volume)).sum = t := by
    subst hrs
    rw [List.map_map] at hsum ⊢
    have hmap : ∀ c : PartnerCalc,
        ((·.allocated_volume) ∘ eng.mkResult t ((cs.map (·.net_standard)).sum)) c =
          ((·.ownership_percent) ∘ eng.mkResult t ((cs.map (·.net_standard)).sum)) c
            * (t / 100) := by
      intro c
      simp only [Function.comp, AllocationEngine.mkResult_allocated]
      ring
    rw [List.map_congr_left fun c _ => hmap c, List.sum_map_mul_right, hsum]
    ring
  rw [halloc]
  norm_num

/-- Witness for C6 amended at Scenario A. -/
theorem claim_C6_witness :
    |(sampleResults.map (·.allocated_volume)).sum - 1000| ≤ 1 / 1000000 :=
  claim_C6_amended defaultEngine [sampleData] 1000 sampleResults sampleAlloc_eq
    (by norm_num [sampleResults, sampleResult0])

/-- C9 counterexample: at observed temperature -2440 (2500 below the 60
standard) the temperature-effect factor is exactly zero, so the source
raises ZeroDivisionError instead of returning 1 + 0.0004 * (t - 60). -/
theorem claim_C9_counterexample :
    defaultEngine.calculate_api_correction (-2440) 35 =
      .error "float division by zero" ∧
    defaultEngine.calculate_api_correction (-2440) 35 ≠
      .ok (1 + (0.0004 : ℚ) * ((-2440) - defaultEngine.temperature_standard)) := by
  have h : defaultEngine.calculate_api_correction (-2440) 35 =
      .error "float division by zero" := by
    unfold AllocationEngine.calculate_api_correction
      AllocationEngine.calculate_specific_gravity divE defaultEngine
    norm_num [exceptBindOk, exceptBindErr]
  refine ⟨h, ?_⟩
  rw [h]
  exact fun hc => Except.noConfusion hc

/-- C9 amended: for every observed temperature whose temperature-effect
factor 1 + 0.0004 * (t - temperature_standard) is nonzero and every
positive API gravity, calculate_api_correction returns exactly that
factor: the standard specific gravity cancels out of the quotient.  When
the factor is exactly zero (t = temperature_standard - 2500) the function
raises ZeroDivisionError instead. -/
theorem claim_C9_amended (eng : AllocationEngine) (t a : ℚ) (ha : 0 < a) :
    (1 + (0.0004 : ℚ) * (t - eng.temperature_standard) ≠ 0 →
      eng.calculate_api_correction t a =
        .ok (1 + (0.0004 : ℚ) * (t - eng.temperature_standard))) ∧
    (1 + (0.0004 : ℚ) * (t - eng.temperature_standard) = 0 →
      eng.calculate_api_correction t a = .error "float division by zero") := by
  have hsg : (141.5 : ℚ) / (a + (131.5 : ℚ)) ≠ 0 := by
    apply div_ne_zero
    · norm_num
    · positivity
  unfold AllocationEngine.calculate_api_correction
    AllocationEngine.calculate_specific_gravity divE
  rw [if_neg (not_le.mpr ha)]
  simp only [exceptBindOk]
  constructor
  · intro hte
    rw [if_neg hte]
    simp only [exceptBindOk]
    rw [if_neg (div_ne_zero hsg hte)]
    rw [div_div_eq_mul_div, mul_comm, mul_div_assoc, div_self hsg, mul_one]
  · intro hte
    rw [if_pos hte]
    simp only [exceptBindErr]

/-- Witness for C9 amended at temperature 85 F and API gravity 35. -/
theorem claim_C9_witness :
    defaultEngine.calculate_api_correction 85 35 =
      .ok (1 + (0.0004 : ℚ) * (85 - defaultEngine.temperature_standard)) :=
  (claim_C9_amended defaultEngine 85 35 (by norm_num)).1 (by norm_num [defaultEngine])

/-- C10: every AllocationResult produced by a successful allocate_volumes
records equal observed and standard specific gravities, both equal to
141.5 / (api_gravity + 131.5); no temperature-adjusted observed specific
gravity is recorded. -/
theorem claim_C10_recorded_specific_gravity (eng : AllocationEngine)
    (l : List ProductionData) (t : ℚ) (rs : List AllocationResult)
    (h : eng.allocate_volumes l t = .ok rs) :
    ∀ r ∈ rs, r.observed_specific_gravity = r.standard_specific_gravity ∧
      r.observed_specific_gravity = (141.5 : ℚ) / (r.api_gravity + (131.5 : ℚ)) := by
  obtain ⟨cs, hcs, hrs⟩ := AllocationEngine.allocate_inv h
  subst hrs
  intro r hr
  obtain ⟨c, hc, hmk⟩ := List.mem_map.mp hr
  obtain ⟨d, _, hpd⟩ := mapE_ok_mem hcs c hc
  obtain ⟨hdata, hstd, hobs, _, _, _⟩ := AllocationEngine.processPartner_spec hpd
  subst hmk
  refine ⟨hstd.symm, ?_⟩
  show c.sg_observed = (141.5 : ℚ) / (c.data.api_gravity + (131.5 : ℚ))
  rw [hdata, hobs]

/-- Witness for C10 at Scenario A. -/
theorem claim_C10_witness :
    sampleResult0.observed_specific_gravity = sampleResult0.standard_specific_gravity ∧
    sampleResult0.observed_specific_gravity =
      (141.5 : ℚ) / (sampleResult0.api_gravity + (131.5 : ℚ)) :=
  claim_C10_recorded_specific_gravity defaultEngine [sampleData] 1000 sampleResults
    sampleAlloc_eq sampleResult0 (List.mem_singleton.mpr rfl)

/-! Shallow embedding of the orchestrator perform_reconciliation of
backend/agents/accountant/main.py.  The Firestore document store is
modelled as association lists of documents; the two Firestore queries are
modelled as filters over the production-entries list; datetimes are
modelled as integers.  External effects (the Pub/Sub publish and the
Gemini call) are parameters of the run environment: the Gemini call is
wrapped in try/except in the source, so only its optional result matters;
the publish raises iff the environment says so. -/

/-- Embeds ProductionEntryStatus of shared/models/production.py. -/
inductive EntryStatus
  | pending
  | approved
  | flagged
  | pending_approval
  | rejected
deriving DecidableEq

/-- The fields of a production-entry document read by the orchestrator. -/
structure ProductionEntry where
  tenant_id : String
  partner_id : String
  measurement_date : ℤ
  gross_volume : ℚ
  bsw_percent : ℚ
  temperature : ℚ
  api_gravity : ℚ
  status : EntryStatus
deriving DecidableEq

/-- Embeds ReconciliationStatus of shared/models/reconciliation.py. -/
inductive ReconciliationStatus
  | pending
  | processing
  | completed
  | failed
deriving DecidableEq

/-- Embeds the pydantic model PartnerAllocation (built from an
AllocationResult in main.py; it drops the temperature and
specific-gravity audit fields). -/
structure PartnerAllocation where
  partner_id : String
  partner_name : String
  gross_volume : ℚ
  bsw_percent : ℚ
  water_cut_factor : ℚ
  net_volume_observed : ℚ
  temperature_correction_factor : ℚ
  api_correction_factor : ℚ
  net_volume_standard : ℚ
  ownership_percent : ℚ
  allocated_volume : ℚ
  water_volume : ℚ
  total_net_standard_volume : ℚ
  terminal_volume : ℚ
deriving DecidableEq

/-- Embeds the pydantic model ReconciliationResult. -/
structure ReconciliationResult where
  total_gross_volume : ℚ
  total_net_volume_standard : ℚ
  total_allocated_volume : ℚ
  shrinkage_volume : ℚ
  shrinkage_percent : ℚ
  partner_allocations : List PartnerAllocation
  allocation_model_used : String
deriving DecidableEq

/-- The fields of a reconciliation document touched by the orchestrator. -/
structure Reconciliation where
  tenant_id : String
  period_start : ℤ
  period_end : ℤ
  terminal_volume : ℚ
  status : ReconciliationStatus
  result : Option ReconciliationResult := none
  error_message : Option String := none
  ai_analysis : Option String := none
  completed_at : Option ℤ := none
deriving DecidableEq

/-- The fields of a users-collection document read for partner names. -/
structure UserDoc where
  organization : Option String := none
  full_name : Option String := none
deriving DecidableEq

/-- Tenant settings read by the orchestrator (a missing field means the
key is absent from the settings dict, so the source default applies). -/
structure TenantSettings where
  allocation_model : Option String := none
  default_temperature_standard : Option ℚ := none
  default_pressure_standard : Option ℚ := none
deriving DecidableEq

/-- A tenant document. -/
structure Tenant where
  settings : TenantSettings := {}
deriving DecidableEq

/-- The Firestore collections the orchestrator touches. -/
structure DB where
  reconciliations : List (String × Reconciliation)
  tenants : List (String × Tenant)
  production_entries : List ProductionEntry
  users : List (String × UserDoc)
deriving DecidableEq

/-- Document lookup by id (first match, as for unique Firestore ids). -/
def getDoc {α : Type} : List (String × α) → String → Option α
  | [], _ => none
  | (k, v) :: rest, id => if k = id then some v else getDoc rest id

/-- Document field update by id, modelling a Firestore update call. -/
def updateDoc {α : Type} (l : List (String × α)) (id : String) (f : α → α) :
    List (String × α) :=
  l.map fun p => if p.1 = id then (p.1, f p.2) else p

/-- Update of one reconciliation document inside the store. -/
def DB.updateRecon (db : DB) (id : String) (f : Reconciliation → Reconciliation) : DB :=
  { db with reconciliations := updateDoc db.reconciliations id f }

/-- The first query of perform_reconciliation: all production entries of
the tenant whose measurement_date lies in the period. -/
def entriesForPeriod (db : DB) (tenant_id : String) (ps pe : ℤ) :
    List ProductionEntry :=
  db.production_entries.filter fun e =>
    e.tenant_id == tenant_id && decide (ps ≤ e.measurement_date) &&
      decide (e.measurement_date ≤ pe)

/-- The second query: the approved subset of the same period. -/
def approvedForPeriod (db : DB) (tenant_id : String) (ps pe : ℤ) :
    List ProductionEntry :=
  db.production_entries.filter fun e =>
    e.tenant_id == tenant_id && e.status == .approved &&
      decide (ps ≤ e.measurement_date) && decide (e.measurement_date ≤ pe)

/-- Python partner_id[-6:]. -/
def lastSix (s : String) : String :=
  String.mk (s.data.drop (s.data.length - 6))

/-- Partner display-name resolution of main.py: read the users document;
use organization when truthy (present and non-empty), else full_name when
the key is present, else the fallback "Partner " plus the last six
characters of the id.  The try/except around the read cannot fire in this
pure model. -/
def resolvePartnerName (db : DB) (partner_id : String) : String :=
  let fallback := "Partner " ++ lastSix partner_id
  match getDoc db.users partner_id with
  | none => fallback
  | some u =>
    match u.organization with
    | some org => if org ≠ "" then org else u.full_name.getD fallback
    | none => u.full_name.getD fallback

/-- The per-partner accumulator dict of the grouping loop in main.py. -/
structure PartnerAcc where
  partner_id : String
  partner_name : String
  gross_volume : ℚ
  bsw_sum : ℚ
  temp_sum : ℚ
  api_sum : ℚ
  count : ℕ
deriving DecidableEq

/-- The partner_data dict: an insertion-ordered key list plus lookup. -/
structure PartnerMap where
  keys : List String
  entry : String → Option PartnerAcc

/-- The unconditional += lines at the end of each grouping iteration. -/
def PartnerAcc.bump (acc : PartnerAcc) (e : ProductionEntry) : PartnerAcc :=
  { acc with
    gross_volume := acc.gross_volume + e.gross_volume
    bsw_sum := acc.bsw_sum + e.bsw_percent
    temp_sum := acc.temp_sum + e.temperature
    api_sum := acc.api_sum + e.api_gravity
    count := acc.count + 1 }

/-- The zero-initialised accumulator created on first sight of a partner. -/
def initAcc (db : DB) (partner_id : String) : PartnerAcc :=
  { partner_id := partner_id, partner_name := resolvePartnerName db partner_id,
    gross_volume := 0, bsw_sum := 0, temp_sum := 0, api_sum := 0, count := 0 }

/-- One iteration of the grouping loop over approved entries. -/
def addEntry (db : DB) (m : PartnerMap) (e : ProductionEntry) : PartnerMap :=
  match m.entry e.partner_id with
  | some acc =>
    { m with entry := fun k => if k = e.partner_id then some (acc.bump e) else m.entry k }
  | none =>
    { keys := m.keys ++ [e.partner_id],
      entry := fun k =>
        if k = e.partner_id then some ((initAcc db e.partner_id).bump e) else m.entry k }

/-- The grouping-and-averaging stage of perform_reconciliation: fold the
approved entries into the partner_data dict, then build one ProductionData
per partner in insertion order, averaging BSW, temperature and API gravity
by the per-partner count. -/
def aggregateApproved (db : DB) (approved : List ProductionEntry) :
    List ProductionData :=
  let m := approved.foldl (addEntry db) ⟨[], fun _ => none⟩
  m.keys.filterMap fun pid =>
    (m.entry pid).map fun d =>
      { partner_id := pid, partner_name := d.partner_name,
        gross_volume := d.gross_volume, bsw_percent := d.bsw_sum / (d.count : ℚ),
        temperature := d.temp_sum / (d.count : ℚ),
        api_gravity := d.api_sum / (d.count : ℚ) }

/-- One decimal digit, rounding to nearest: models the .1f format applied
to the approval percentage (exact on the multiples of one tenth that the
claims exercise). -/
def fmt1 (q : ℚ) : String :=
  let t : ℤ := ⌊q * 10 + 1 / 2⌋
  toString (t / 10) ++ "." ++ toString (t % 10)

/-- The persisted error_message of the approval-gate failure branch. -/
def insufficientApprovalMsg (approved total : ℕ) (pct : ℚ) : String :=
  "Insufficient approved production data for reconciliation. Only " ++
    toString approved ++ " out of " ++ toString total ++ " entries (" ++
    fmt1 pct ++ "%) are approved. At least 90% of production data must be approved " ++
    "before reconciliation can proceed."

/-- The persisted error_message when the period has no entries at all. -/
def noEntriesMsg : String := "No production entries found for the period."

/-- The persisted error_message of the dead zero-approved branch. -/
def noApprovedMsg : String := "No approved production entries found for the period."

/-- Conversion of an engine AllocationResult into the persisted
PartnerAllocation payload. -/
def toPartnerAllocation (r : AllocationResult) : PartnerAllocation :=
  { partner_id := r.partner_id, partner_name := r.partner_name,
    gross_volume := r.gross_volume, bsw_percent := r.bsw_percent,
    water_cut_factor := r.water_cut_factor,
    net_volume_observed := r.net_volume_observed,
    temperature_correction_factor := r.temperature_correction_factor,
    api_correction_factor := r.api_correction_factor,
    net_volume_standard := r.net_volume_standard,
    ownership_percent := r.ownership_percent,
    allocated_volume := r.allocated_volume, water_volume := r.water_volume,
    total_net_standard_volume := r.total_net_standard_volume,
    terminal_volume := r.terminal_volume }

/-- The observable store writes and channel publishes of one orchestrator
invocation, in order. -/
inductive StoreWrite
  | setProcessing (recId : String)
  | setFailed (recId : String) (msg : String)
  | setCompleted (recId : String) (result : ReconciliationResult)
  | publishComplete (recId : String) (tenantId : String)
deriving DecidableEq

/-- External collaborators of one invocation: publishError is some msg iff
publish_reconciliation_complete raises (after its internal retries);
aiAnalysis is the optional text produced by the try/except-guarded Gemini
call; now is the completion timestamp datetime.now(). -/
structure OrchestratorEnv where
  publishError : Option String := none
  aiAnalysis : Option String := none
  now : ℤ := 0

/-- The FAILED status update: sets status and error_message, leaving all
other document fields (including any previously written result) in place. -/
def failWrite (db : DB) (recId msg : String) : DB :=
  db.updateRecon recId fun r => { r with status := .failed, error_message := some msg }

/-- The FAILED write performed by the outer exception handler, followed by
re-raising (so the Pub/Sub callback nacks the message). -/
def failAndRaise (db : DB) (log : List StoreWrite) (recId msg : String) :
    DB × List StoreWrite × Except String Unit :=
  (failWrite db recId msg, log ++ [.setFailed recId msg], .error msg)

/-- The FAILED write of the early-return branches (no raise: the message
is acked). -/
def failAndReturn (db : DB) (log : List StoreWrite) (recId msg : String) :
    DB × List StoreWrite × Except String Unit :=
  (failWrite db recId msg, log ++ [.setFailed recId msg], .ok ())

/-- The run-level totals and result payload assembled after allocation. -/
def buildResult (tenant : Tenant) (allocation_results : List AllocationResult) :
    ReconciliationResult :=
  let total_gross := (allocation_results.map (·.gross_volume)).sum
  let total_allocated := (allocation_results.map (·.allocated_volume)).sum
  let shrinkage := total_gross - total_allocated
  { total_gross_volume := total_gross,
    total_net_volume_standard := (allocation_results.map (·.net_volume_standard)).sum,
    total_allocated_volume := total_allocated,
    shrinkage_volume := shrinkage,
    shrinkage_percent := if total_gross > 0 then shrinkage / total_gross * 100 else 0,
    partner_allocations := allocation_results.map toPartnerAllocation,
    allocation_model_used := tenant.settings.allocation_model.getD "api_mpms_11_1" }

/-- The update applied to the run document by the COMPLETED write:
status, result payload, completion timestamp, and the AI analysis when the
guarded Gemini call produced one. -/
def completedRecord (ai : Option String) (now : ℤ) (result : ReconciliationResult)
    (r : Reconciliation) : Reconciliation :=
  { r with status := .completed, result := some result,
           completed_at := some now,
           ai_analysis := match ai with
                          | some a => some a
                          | none => r.ai_analysis }

/-- The COMPLETED status update of the store. -/
def completedWrite (env : OrchestratorEnv) (db : DB) (recId : String)
    (result : ReconciliationResult) : DB :=
  db.updateRecon recId (completedRecord env.aiAnalysis env.now result)

/-- The engine built from the tenant settings (source defaults 60 F and
14.696 psia when the settings keys are absent). -/
def engFor (tenant : Tenant) : AllocationEngine :=
  { temperature_standard := tenant.settings.default_temperature_standard.getD 60,
    pressure_standard := tenant.settings.default_pressure_standard.getD (14.696 : ℚ) }

/-- Steps 6 to 9 of perform_reconciliation, reached once the approval gate
has passed: aggregation, allocation, totals, the COMPLETED write and the
completion publish.  A ValueError out of the engine, or a publish failure,
falls to the outer handler (FAILED write plus re-raise). -/
def runAllocationPhase (env : OrchestratorEnv) (db1 : DB) (log1 : List StoreWrite)
    (reconciliation_id tenant_id : String) (tenant : Tenant)
    (recon : Reconciliation) (approved_entries : List ProductionEntry) :
    DB × List StoreWrite × Except String Unit :=
  let production_inputs := aggregateApproved db1 approved_entries
  let eng := engFor tenant
  match eng.allocate_volumes production_inputs recon.terminal_volume with
  | .error msg => failAndRaise db1 log1 reconciliation_id msg
  | .ok allocation_results =>
    let result := buildResult tenant allocation_results
    let db2 := completedWrite env db1 reconciliation_id result
    let log2 := log1 ++ [.setCompleted reconciliation_id result]
    match env.publishError with
    | none => (db2, log2 ++ [.publishComplete reconciliation_id tenant_id], .ok ())
    | some m =>
      (failWrite db2 reconciliation_id m, log2 ++ [.setFailed reconciliation_id m],
       .error m)

/-- The approval percentage computed by the gate. -/
def approvalPct (approved total : ℕ) : ℚ :=
  if total > 0 then (approved : ℚ) / (total : ℚ) * 100 else 0

/-- Embeds perform_reconciliation of main.py: load the run document (a
missing document returns silently), write PROCESSING, load the tenant (a
missing tenant raises, so the handler writes FAILED and re-raises), run
the two period queries, apply the approval gate, and hand over to the
allocation phase. -/
def perform_reconciliation (env : OrchestratorEnv) (db : DB)
    (reconciliation_id tenant_id : String) :
    DB × List StoreWrite × Except String Unit :=
  match getDoc db.reconciliations reconciliation_id with
  | none => (db, [], .ok ())
  | some recon =>
    let db1 := db.updateRecon reconciliation_id fun r => { r with status := .processing }
    let log1 : List StoreWrite := [.setProcessing reconciliation_id]
    match getDoc db.tenants tenant_id with
    | none => failAndRaise db1 log1 reconciliation_id ("Tenant " ++ tenant_id ++ " not found")
    | some tenant =>
      let all_entries := entriesForPeriod db tenant_id recon.period_start recon.period_end
      let total_entries_count := all_entries.length
      if total_entries_count = 0 then
        failAndReturn db1 log1 reconciliation_id noEntriesMsg
      else
        let approved_entries :=
          approvedForPeriod db tenant_id recon.period_start recon.period_end
        let approved_entries_count := approved_entries.length
        let approval_percentage : ℚ := approvalPct approved_entries_count total_entries_count
        if approval_percentage < 90 then
          failAndReturn db1 log1 reconciliation_id
            (insufficientApprovalMsg approved_entries_count total_entries_count
              approval_percentage)
        else if approved_entries_count = 0 then
          failAndReturn db1 log1 reconciliation_id noApprovedMsg
        else
          runAllocationPhase env db1 log1 reconciliation_id tenant_id tenant recon
            approved_entries

/-- The status stored for a run. -/
def reconStatus (db : DB) (recId : String) : Option ReconciliationStatus :=
  (getDoc db.reconciliations recId).map (·.status)

/-- The error message stored for a run. -/
def reconError (db : DB) (recId : String) : Option String :=
  (getDoc db.reconciliations recId).bind (·.error_message)

/-- The result payload stored for a run. -/
def reconResult (db : DB) (recId : String) : Option ReconciliationResult :=
  (getDoc db.reconciliations recId).bind (·.result)

/-- Character-list version of startsWith, for substring checks. -/
def charsStartWith : List Char → List Char → Bool
  | [], _ => true
  | _ :: _, [] => false
  | a :: as, b :: bs => a == b && charsStartWith as bs

/-- Character-list substring check. -/
def charsContain (pat : List Char) : List Char → Bool
  | [] => pat.isEmpty
  | c :: rest => charsStartWith pat (c :: rest) || charsContain pat rest

/-- Whether pat occurs as a contiguous substring of s. -/
def mentions (s pat : String) : Bool := charsContain pat.data s.data

/-! Store lemmas. -/

theorem getDoc_cons {α : Type} (k : String) (v : α) (rest : List (String × α))
    (qid : String) :
    getDoc ((k, v) :: rest) qid = if k = qid then some v else getDoc rest qid := rfl

theorem getDoc_updateDoc {α : Type} (l : List (String × α)) (recId qid : String)
    (f : α → α) :
    getDoc (updateDoc l recId f) qid =
      if qid = recId then (getDoc l qid).map f else getDoc l qid := by
  induction l with
  | nil => by_cases h : qid = recId <;> simp [getDoc, updateDoc, h]
  | cons p rest ih =>
    obtain ⟨k, v⟩ := p
    have hmap : updateDoc ((k, v) :: rest) recId f =
        (if k = recId then (k, f v) else (k, v)) :: updateDoc rest recId f := by
      simp [updateDoc]
    rw [hmap]
    by_cases h1 : k = recId
    · rw [if_pos h1]
      by_cases h2 : qid = recId
      · subst h2
        subst h1
        simp [getDoc_cons]
      · have h3 : ¬ k = qid := fun hh => h2 (hh ▸ h1)
        rw [getDoc_cons, if_neg h3, ih, if_neg h2, if_neg h2, getDoc_cons, if_neg h3]
    · rw [if_neg h1, getDoc_cons, getDoc_cons, ih]
      by_cases h3 : k = qid
      · have h2 : ¬ qid = recId := fun hh => h1 (h3.trans hh)
        simp [h2, h3]
      · by_cases h2 : qid = recId <;> simp [h2, h3, h1]

theorem getDoc_updateRecon (db : DB) (recId : String)
    (f : Reconciliation → Reconciliation) :
    getDoc (db.updateRecon recId f).reconciliations recId =
      (getDoc db.reconciliations recId).map f := by
  simp [DB.updateRecon, getDoc_updateDoc]

theorem updateRecon_tenants (db : DB) (recId : String)
    (f : Reconciliation → Reconciliation) :
    (db.updateRecon recId f).tenants = db.tenants := rfl

theorem updateRecon_entries (db : DB) (recId : String)
    (f : Reconciliation → Reconciliation) :
    (db.updateRecon recId f).production_entries = db.production_entries := rfl

theorem updateRecon_users (db : DB) (recId : String)
    (f : Reconciliation → Reconciliation) :
    (db.updateRecon recId f).users = db.users := rfl

/-- Status and message observed after a failWrite over a present document. -/
theorem failWrite_observables (db : DB) (recId msg : String)
    (r : Reconciliation) (h : getDoc db.reconciliations recId = some r) :
    reconStatus (failWrite db recId msg) recId = some .failed ∧
      reconError (failWrite db recId msg) recId = some msg := by
  simp [failWrite, reconStatus, reconError, getDoc_updateRecon, h]

/-- Filtering a replicated list keeps all or nothing. -/
theorem filter_replicate (n : ℕ) (a : α) (p : α → Bool) :
    (List.replicate n a).filter p = if p a then List.replicate n a else [] := by
  induction n with
  | zero => simp
  | succ n ih =>
    by_cases h : p a <;> simp [List.replicate_succ, List.filter_cons, h, ih]

/-! Branch equations for perform_reconciliation. -/

theorem perform_no_doc (env : OrchestratorEnv) (db : DB) (rid tid : String)
    (h : getDoc db.reconciliations rid = none) :
    perform_reconciliation env db rid tid = (db, [], .ok ()) := by
  unfold perform_reconciliation
  rw [h]

theorem perform_no_tenant (env : OrchestratorEnv) (db : DB) (rid tid : String)
    (recon : Reconciliation)
    (h1 : getDoc db.reconciliations rid = some recon)
    (h2 : getDoc db.tenants tid = none) :
    perform_reconciliation env db rid tid =
      failAndRaise (db.updateRecon rid fun r => { r with status := .processing })
        [.setProcessing rid] rid ("Tenant " ++ tid ++ " not found") := by
  unfold perform_reconciliation
  rw [h1, h2]

theorem perform_no_entries (env : OrchestratorEnv) (db : DB) (rid tid : String)
    (recon : Reconciliation) (tenant : Tenant)
    (h1 : getDoc db.reconciliations rid = some recon)
    (h2 : getDoc db.tenants tid = some tenant)
    (ht : (entriesForPeriod db tid recon.period_start recon.period_end).length = 0) :
    perform_reconciliation env db rid tid =
      failAndReturn (db.updateRecon rid fun r => { r with status := .processing })
        [.setProcessing rid] rid noEntriesMsg := by
  unfold perform_reconciliation
  rw [h1, h2]
  simp [ht]

theorem perform_gate_fail (env : OrchestratorEnv) (db : DB) (rid tid : String)
    (recon : Reconciliation) (tenant : Tenant)
    (h1 : getDoc db.reconciliations rid = some recon)
    (h2 : getDoc db.tenants tid = some tenant)
    (ht : (entriesForPeriod db tid recon.period_start recon.period_end).length ≠ 0)
    (hp : approvalPct
        (approvedForPeriod db tid recon.period_start recon.period_end).length
        (entriesForPeriod db tid recon.period_start recon.period_end).length < 90) :
    perform_reconciliation env db rid tid =
      failAndReturn (db.updateRecon rid fun r => { r with status := .processing })
        [.setProcessing rid] rid
        (insufficientApprovalMsg
          (approvedForPeriod db tid recon.period_start recon.period_end).length
          (entriesForPeriod db tid recon.period_start recon.period_end).length
          (approvalPct
            (approvedForPeriod db tid recon.period_start recon.period_end).length
            (entriesForPeriod db tid recon.period_start recon.period_end).length)) := by
  unfold perform_reconciliation
  rw [h1, h2]
  simp only [if_neg ht, if_pos hp]

theorem perform_gate_pass (env : OrchestratorEnv) (db : DB) (rid tid : String)
    (recon : Reconciliation) (tenant : Tenant)
    (h1 : getDoc db.reconciliations rid = some recon)
    (h2 : getDoc db.tenants tid = some tenant)
    (ht : (entriesForPeriod db tid recon.period_start recon.period_end).length ≠ 0)
    (hp : ¬ approvalPct
        (approvedForPeriod db tid recon.period_start recon.period_end).length
        (entriesForPeriod db tid recon.period_start recon.period_end).length < 90) :
    perform_reconciliation env db rid tid =
      runAllocationPhase env
        (db.updateRecon rid fun r => { r with status := .processing })
        [.setProcessing rid] rid tid tenant recon
        (approvedForPeriod db tid recon.period_start recon.period_end) := by
  have hap : (approvedForPeriod db tid recon.period_start recon.period_end).length ≠ 0 := by
    intro h0
    apply hp
    rw [approvalPct, h0, if_pos (Nat.pos_of_ne_zero ht)]
    norm_num
  unfold perform_reconciliation
  rw [h1, h2]
  simp only [if_neg ht, if_neg hp, if_neg hap]

/-! Message computations. -/

theorem fmt1_85 : fmt1 85 = "85.0" := by
  unfold fmt1
  rw [show ⌊(85 : ℚ) * 10 + 1 / 2⌋ = 850 from by rw [Int.floor_eq_iff] <;> norm_num]
  rfl

theorem fmt1_0 : fmt1 0 = "0.0" := by
  unfold fmt1
  rw [show ⌊(0 : ℚ) * 10 + 1 / 2⌋ = 0 from by rw [Int.floor_eq_iff] <;> norm_num]
  rfl

theorem insuffMsg_85 : insufficientApprovalMsg 85 100 85 =
    "Insufficient approved production data for reconciliation. Only 85 out of 100 entries (85.0%) are approved. At least 90% of production data must be approved before reconciliation can proceed." := by
  unfold insufficientApprovalMsg
  rw [fmt1_85]
  rfl

theorem insuffMsg_0_1 : insufficientApprovalMsg 0 1 0 =
    "Insufficient approved production data for reconciliation. Only 0 out of 1 entries (0.0%) are approved. At least 90% of production data must be approved before reconciliation can proceed." := by
  unfold insufficientApprovalMsg
  rw [fmt1_0]
  rfl

theorem approvalPct_zero (n : ℕ) (hn : 0 < n) : approvalPct 0 n = 0 := by
  unfold approvalPct
  rw [if_pos hn]
  norm_num

/-! Concrete stores used by the orchestrator claims. -/

/-- An approved production entry inside the period. -/
def cEntryA : ProductionEntry :=
  { tenant_id := "T1", partner_id := "p1", measurement_date := 5, gross_volume := 100,
    bsw_percent := 0, temperature := 60, api_gravity := 35, status := .approved }

/-- The same entry, still pending review. -/
def cEntryP : ProductionEntry := { cEntryA with status := .pending }

/-- A pending reconciliation over the period containing the entries. -/
def cRecon : Reconciliation :=
  { tenant_id := "T1", period_start := 0, period_end := 10, terminal_volume := 100,
    status := .pending }

/-- 100 entries, 85 approved: the approval-gate failure input of C4. -/
def c4db : DB :=
  { reconciliations := [("R1", cRecon)], tenants := [("T1", {})],
    production_entries := List.replicate 85 cEntryA ++ List.replicate 15 cEntryP,
    users := [] }

/-- 10 entries, 9 approved: exactly 90 percent, the boundary input. -/
def wdb : DB :=
  { reconciliations := [("R1", cRecon)], tenants := [("T1", {})],
    production_entries := List.replicate 9 cEntryA ++ [cEntryP], users := [] }

/-- 1 entry, 0 approved: the zero-approved input of C7. -/
def c7db : DB :=
  { reconciliations := [("R1", cRecon)], tenants := [("T1", {})],
    production_entries := [cEntryP], users := [] }

/-- 1 approved entry: the success-path input of C2 and C5. -/
def c2db : DB :=
  { reconciliations := [("R1", cRecon)], tenants := [("T1", {})],
    production_entries := [cEntryA], users := [] }

/-- C4 amended: with the run and tenant documents present, the gate
behaves as follows.  No entries at all: FAILED with the message
"No production entries found for the period.".  A strictly sub-90-percent
approval ratio: FAILED with the message "Insufficient approved production
data for reconciliation. Only a out of n entries (p%) are approved. ..."
(the counts and the percentage, in this wording).  A ratio of at least 90
percent (in particular exactly 90): the run proceeds to the allocation
phase. -/
theorem claim_C4_amended (env : OrchestratorEnv) (db : DB) (rid tid : String)
    (recon : Reconciliation) (tenant : Tenant)
    (h1 : getDoc db.reconciliations rid = some recon)
    (h2 : getDoc db.tenants tid = some tenant) :
    ((entriesForPeriod db tid recon.period_start recon.period_end).length = 0 →
      reconStatus (perform_reconciliation env db rid tid).1 rid = some .failed ∧
      reconError (perform_reconciliation env db rid tid).1 rid = some noEntriesMsg) ∧
    ((entriesForPeriod db tid recon.period_start recon.period_end).length ≠ 0 →
      approvalPct (approvedForPeriod db tid recon.period_start recon.period_end).length
        (entriesForPeriod db tid recon.period_start recon.period_end).length < 90 →
      reconStatus (perform_reconciliation env db rid tid).1 rid = some .failed ∧
      reconError (perform_reconciliation env db rid tid).1 rid =
        some (insufficientApprovalMsg
          (approvedForPeriod db tid recon.period_start recon.period_end).length
          (entriesForPeriod db tid recon.period_start recon.period_end).length
          (approvalPct
            (approvedForPeriod db tid recon.period_start recon.period_end).length
            (entriesForPeriod db tid recon.period_start recon.period_end).length))) ∧
    ((entriesForPeriod db tid recon.period_start recon.period_end).length ≠ 0 →
      ¬ approvalPct (approvedForPeriod db tid recon.period_start recon.period_end).length
        (entriesForPeriod db tid recon.period_start recon.period_end).length < 90 →
      perform_reconciliation env db rid tid =
        runAllocationPhase env
          (db.updateRecon rid fun r => { r with status := .processing })
          [.setProcessing rid] rid tid tenant recon
          (approvedForPeriod db tid recon.period_start recon.period_end)) := by
  have hdb1 : getDoc
      ((db.updateRecon rid fun r => { r with status := .processing }).reconciliations)
      rid = some { recon with status := .processing } := by
    rw [getDoc_updateRecon, h1]
    rfl
  refine ⟨?_, ?_, ?_⟩
  · intro ht
    rw [perform_no_entries env db rid tid recon tenant h1 h2 ht]
    exact failWrite_observables _ _ _ _ hdb1
  · intro ht hp
    rw [perform_gate_fail env db rid tid recon tenant h1 h2 ht hp]
    exact failWrite_observables _ _ _ _ hdb1
  · intro ht hp
    exact perform_gate_pass env db rid tid recon tenant h1 h2 ht hp

/-- Witness for C4 amended at the 90-percent boundary: 10 entries with 9
approved proceed to the allocation phase. -/
theorem claim_C4_witness :
    perform_reconciliation {} wdb "R1" "T1" =
      runAllocationPhase {}
        (wdb.updateRecon "R1" fun r => { r with status := .processing })
        [.setProcessing "R1"] "R1" "T1" {} cRecon
        (approvedForPeriod wdb "T1" cRecon.period_start cRecon.period_end) :=
  (claim_C4_amended {} wdb "R1" "T1" cRecon {} rfl rfl).2.2
    (by decide)
    (by
      rw [show (approvedForPeriod wdb "T1" cRecon.period_start cRecon.period_end).length = 9
            from by decide,
          show (entriesForPeriod wdb "T1" cRecon.period_start cRecon.period_end).length = 10
            from by decide]
      unfold approvalPct
      norm_num)

/-- C4 counterexample: with 100 entries of which 85 are approved, the
persisted failure reason is the "Insufficient approved production data"
message; the string "85/100 entries approved (85.0%)" claimed by the spec
appears only in a log line and is not part of the stored reason. -/
theorem claim_C4_counterexample :
    reconStatus (perform_reconciliation {} c4db "R1" "T1").1 "R1" = some .failed ∧
    reconError (perform_reconciliation {} c4db "R1" "T1").1 "R1" =
      some (insufficientApprovalMsg 85 100 85) ∧
    mentions (insufficientApprovalMsg 85 100 85) "85/100 entries approved (85.0%)" =
      false := by
  have hlen : (entriesForPeriod c4db "T1" cRecon.period_start cRecon.period_end).length
      = 100 := by decide
  have happ : (approvedForPeriod c4db "T1" cRecon.period_start cRecon.period_end).length
      = 85 := by decide
  have hpct : approvalPct 85 100 = 85 := by
    unfold approvalPct
    norm_num
  have hrun := perform_gate_fail {} c4db "R1" "T1" cRecon {} rfl rfl
    (by rw [hlen]; decide)
    (by rw [hlen, happ, hpct]; norm_num)
  rw [hlen, happ, hpct] at hrun
  have hdb1 : getDoc
      ((c4db.updateRecon "R1" fun r => { r with status := .processing }).reconciliations)
      "R1" = some { cRecon with status := .processing } := by
    rw [getDoc_updateRecon]
    rfl
  have hobs := failWrite_observables _ "R1" (insufficientApprovalMsg 85 100 85) _ hdb1
  refine ⟨?_, ?_, ?_⟩
  · rw [hrun]
    exact hobs.1
  · rw [hrun]
    exact hobs.2
  · rw [insuffMsg_85]
    decide

/-- C7 counterexample: with one entry and zero approved, the persisted
reason is the insufficient-approval message with counts 0 out of 1, not
the "No approved production entries found for the period." message, and it
does not mention "no readings". -/
theorem claim_C7_counterexample :
    reconError (perform_reconciliation {} c7db "R1" "T1").1 "R1" =
      some (insufficientApprovalMsg 0 1 0) ∧
    insufficientApprovalMsg 0 1 0 ≠ noApprovedMsg ∧
    mentions (insufficientApprovalMsg 0 1 0) "no readings" = false := by
  have hlen : (entriesForPeriod c7db "T1" cRecon.period_start cRecon.period_end).length
      = 1 := by decide
  have happ : (approvedForPeriod c7db "T1" cRecon.period_start cRecon.period_end).length
      = 0 := by decide
  have hpct : approvalPct 0 1 = 0 := approvalPct_zero 1 (by decide)
  have hrun := perform_gate_fail {} c7db "R1" "T1" cRecon {} rfl rfl
    (by rw [hlen]; decide)
    (by rw [hlen, happ, hpct]; norm_num)
  rw [hlen, happ, hpct] at hrun
  have hdb1 : getDoc
      ((c7db.updateRecon "R1" fun r => { r with status := .processing }).reconciliations)
      "R1" = some { cRecon with status := .processing } := by
    rw [getDoc_updateRecon]
    rfl
  have hobs := failWrite_observables _ "R1" (insufficientApprovalMsg 0 1 0) _ hdb1
  refine ⟨?_, ?_, ?_⟩
  · rw [hrun]
    exact hobs.2
  · rw [insuffMsg_0_1]
    decide
  · rw [insuffMsg_0_1]
    decide

/-- C7 amended: when the period has at least one entry and zero approved
entries, the sub-90-percent branch fires first, so the run is FAILED with
the insufficient-approval reason (0 out of n, 0.0%); the dedicated
"No approved production entries found for the period." branch is
unreachable. -/
theorem claim_C7_amended (env : OrchestratorEnv) (db : DB) (rid tid : String)
    (recon : Reconciliation) (tenant : Tenant)
    (h1 : getDoc db.reconciliations rid = some recon)
    (h2 : getDoc db.tenants tid = some tenant)
    (ht : (entriesForPeriod db tid recon.period_start recon.period_end).length ≠ 0)
    (ha : (approvedForPeriod db tid recon.period_start recon.period_end).length = 0) :
    reconStatus (perform_reconciliation env db rid tid).1 rid = some .failed ∧
    reconError (perform_reconciliation env db rid tid).1 rid =
      some (insufficientApprovalMsg 0
        (entriesForPeriod db tid recon.period_start recon.period_end).length 0) := by
  have hpct : approvalPct
      (approvedForPeriod db tid recon.period_start recon.period_end).length
      (entriesForPeriod db tid recon.period_start recon.period_end).length = 0 := by
    rw [ha]
    exact approvalPct_zero _ (Nat.pos_of_ne_zero ht)
  have hrun := perform_gate_fail env db rid tid recon tenant h1 h2 ht
    (by rw [hpct]; norm_num)
  rw [hpct, ha] at hrun
  have hdb1 : getDoc
      ((db.updateRecon rid fun r => { r with status := .processing }).reconciliations)
      rid = some { recon with status := .processing } := by
    rw [getDoc_updateRecon, h1]
    rfl
  rw [hrun]
  exact failWrite_observables _ rid _ _ hdb1

/-- Witness for C7 amended at the one-entry zero-approved store. -/
theorem claim_C7_witness :
    reconStatus (perform_reconciliation {} c7db "R1" "T1").1 "R1" = some .failed ∧
    reconError (perform_reconciliation {} c7db "R1" "T1").1 "R1" =
      some (insufficientApprovalMsg 0
        (entriesForPeriod c7db "T1" cRecon.period_start cRecon.period_end).length 0) :=
  claim_C7_amended {} c7db "R1" "T1" cRecon {} rfl rfl (by decide) (by decide)

/-! Equations for the allocation phase. -/

theorem runPhase_publish_fail (env : OrchestratorEnv) (db1 : DB)
    (log1 : List StoreWrite) (rid tid : String) (tenant : Tenant)
    (recon : Reconciliation) (approved : List ProductionEntry)
    (m : String) (rs : List AllocationResult)
    (hm : env.publishError = some m)
    (ha : (engFor tenant).allocate_volumes (aggregateApproved db1 approved)
        recon.terminal_volume = .ok rs) :
    runAllocationPhase env db1 log1 rid tid tenant recon approved =
      (failWrite (completedWrite env db1 rid (buildResult tenant rs)) rid m,
       (log1 ++ [.setCompleted rid (buildResult tenant rs)]) ++ [.setFailed rid m],
       .error m) := by
  unfold runAllocationPhase
  simp only [ha, hm]

theorem runPhase_publish_ok (env : OrchestratorEnv) (db1 : DB)
    (log1 : List StoreWrite) (rid tid : String) (tenant : Tenant)
    (recon : Reconciliation) (approved : List ProductionEntry)
    (rs : List AllocationResult)
    (hm : env.publishError = none)
    (ha : (engFor tenant).allocate_volumes (aggregateApproved db1 approved)
        recon.terminal_volume = .ok rs) :
    runAllocationPhase env db1 log1 rid tid tenant recon approved =
      (completedWrite env db1 rid (buildResult tenant rs),
       (log1 ++ [.setCompleted rid (buildResult tenant rs)]) ++
         [.publishComplete rid tid],
       .ok ()) := by
  unfold runAllocationPhase
  simp only [ha, hm]

/-- Aggregation reads the store only through the users collection. -/
theorem aggregateApproved_congr (db db' : DB) (h : db.users = db'.users)
    (l : List ProductionEntry) :
    aggregateApproved db l = aggregateApproved db' l := by
  have hr : resolvePartnerName db = resolvePartnerName db' := by
    funext pid
    unfold resolvePartnerName
    rw [h]
  have hadd : addEntry db = addEntry db' := by
    funext m e
    unfold addEntry initAcc
    rw [hr]
  unfold aggregateApproved
  rw [hadd]

/-- Observables of a run whose computation succeeds but whose completion
publish raises: the catch-all handler overwrites COMPLETED with FAILED and
re-raises, while the already-written result payload stays in place. -/
theorem publish_fail_observables (env : OrchestratorEnv) (db : DB)
    (rid tid : String) (recon : Reconciliation) (tenant : Tenant)
    (rs : List AllocationResult) (m : String)
    (h1 : getDoc db.reconciliations rid = some recon)
    (h2 : getDoc db.tenants tid = some tenant)
    (ht : (entriesForPeriod db tid recon.period_start recon.period_end).length ≠ 0)
    (hp : ¬ approvalPct
        (approvedForPeriod db tid recon.period_start recon.period_end).length
        (entriesForPeriod db tid recon.period_start recon.period_end).length < 90)
    (ha : (engFor tenant).allocate_volumes
        (aggregateApproved (db.updateRecon rid fun r => { r with status := .processing })
          (approvedForPeriod db tid recon.period_start recon.period_end))
        recon.terminal_volume = .ok rs)
    (hm : env.publishError = some m) :
    reconStatus (perform_reconciliation env db rid tid).1 rid = some .failed ∧
    reconError (perform_reconciliation env db rid tid).1 rid = some m ∧
    reconResult (perform_reconciliation env db rid tid).1 rid =
      some (buildResult tenant rs) ∧
    StoreWrite.setCompleted rid (buildResult tenant rs) ∈
      (perform_reconciliation env db rid tid).2.1 ∧
    (perform_reconciliation env db rid tid).2.2 = .error m := by
  rw [perform_gate_pass env db rid tid recon tenant h1 h2 ht hp,
    runPhase_publish_fail env _ _ rid tid tenant recon _ m rs hm ha]
  refine ⟨?_, ?_, ?_, ?_, rfl⟩
  · simp [reconStatus, failWrite, completedWrite, completedRecord, getDoc_updateRecon, h1]
  · simp [reconError, failWrite, completedWrite, completedRecord, getDoc_updateRecon, h1]
  · simp [reconResult, failWrite, completedWrite, completedRecord, getDoc_updateRecon, h1]
  · simp

/-- C2 amended: when the computation succeeds (COMPLETED write performed)
but the completion publish raises, the run does NOT stay COMPLETED: the
catch-all exception handler overwrites the status with FAILED (recording
the publish exception text) and re-raises; the previously written result
payload remains stored. -/
theorem claim_C2_amended (env : OrchestratorEnv) (db : DB)
    (rid tid : String) (recon : Reconciliation) (tenant : Tenant)
    (rs : List AllocationResult) (m : String)
    (h1 : getDoc db.reconciliations rid = some recon)
    (h2 : getDoc db.tenants tid = some tenant)
    (ht : (entriesForPeriod db tid recon.period_start recon.period_end).length ≠ 0)
    (hp : ¬ approvalPct
        (approvedForPeriod db tid recon.period_start recon.period_end).length
        (entriesForPeriod db tid recon.period_start recon.period_end).length < 90)
    (ha : (engFor tenant).allocate_volumes
        (aggregateApproved (db.updateRecon rid fun r => { r with status := .processing })
          (approvedForPeriod db tid recon.period_start recon.period_end))
        recon.terminal_volume = .ok rs)
    (hm : env.publishError = some m) :
    StoreWrite.setCompleted rid (buildResult tenant rs) ∈
      (perform_reconciliation env db rid tid).2.1 ∧
    reconStatus (perform_reconciliation env db rid tid).1 rid = some .failed ∧
    reconError (perform_reconciliation env db rid tid).1 rid = some m ∧
    reconResult (perform_reconciliation env db rid tid).1 rid =
      some (buildResult tenant rs) ∧
    (perform_reconciliation env db rid tid).2.2 = .error m := by
  obtain ⟨hs, he, hr, hc, ho⟩ :=
    publish_fail_observables env db rid tid recon tenant rs m h1 h2 ht hp ha hm
  exact ⟨hc, hs, he, hr, ho⟩

/-- The evaluated engine result for the single approved entry of c2db. -/
def c2ar : AllocationResult :=
  { partner_id := "p1", partner_name := "Partner p1", gross_volume := 100,
    bsw_percent := 0, water_cut_factor := 1, net_volume_observed := 100,
    observed_temperature := 60, standard_temperature := 60,
    temperature_correction_factor := 1, api_gravity := 35,
    observed_specific_gravity := 283 / 333, standard_specific_gravity := 283 / 333,
    api_correction_factor := 1, net_volume_standard := 100,
    ownership_percent := 100, allocated_volume := 100, water_volume := 0,
    total_net_standard_volume := 100, terminal_volume := 100 }

/-- The allocation call evaluated on the c2db success path. -/
theorem c2_alloc_eq :
    (engFor {}).allocate_volumes
      (aggregateApproved (c2db.updateRecon "R1" fun r => { r with status := .processing })
        (approvedForPeriod c2db "T1" cRecon.period_start cRecon.period_end))
      cRecon.terminal_volume = .ok [c2ar] := by
  have happ : approvedForPeriod c2db "T1" cRecon.period_start cRecon.period_end
      = [cEntryA] := by decide
  rw [happ]
  have hname : resolvePartnerName
      (c2db.updateRecon "R1" fun r => { r with status := .processing }) "p1"
      = "Partner p1" := by decide
  have hagg : aggregateApproved
      (c2db.updateRecon "R1" fun r => { r with status := .processing }) [cEntryA] =
      [{ partner_id := "p1", partner_name := "Partner p1", gross_volume := 100,
         bsw_percent := 0, temperature := 60, api_gravity := 35 }] := by
    norm_num [aggregateApproved, addEntry, initAcc, PartnerAcc.bump, hname, cEntryA,
      List.foldl, List.filterMap]
  rw [hagg]
  norm_num [engFor, cRecon, AllocationEngine.allocate_volumes, divE, mapE,
    AllocationEngine.processPartner, AllocationEngine.calculate_water_cut_factor,
    AllocationEngine.calculate_api_correction, AllocationEngine.calculate_specific_gravity,
    AllocationEngine.calculate_net_observed_volume,
    AllocationEngine.calculate_net_standard_volume,
    AllocationEngine.calculate_temperature_correction, AllocationEngine.mkResult,
    exceptBindOk, exceptBindErr, c2ar]

/-- Gate-pass fact for c2db: its single entry is approved (100 percent). -/
theorem c2_gate_pass : ¬ approvalPct
    (approvedForPeriod c2db "T1" cRecon.period_start cRecon.period_end).length
    (entriesForPeriod c2db "T1" cRecon.period_start cRecon.period_end).length < 90 := by
  rw [show (approvedForPeriod c2db "T1" cRecon.period_start cRecon.period_end).length = 1
        from by decide,
      show (entriesForPeriod c2db "T1" cRecon.period_start cRecon.period_end).length = 1
        from by decide]
  unfold approvalPct
  norm_num

/-- C2 counterexample: on a store whose computation succeeds, a publish
failure leaves the run FAILED, not COMPLETED, even though the COMPLETED
write (with the result payload) had already been performed. -/
theorem claim_C2_counterexample :
    StoreWrite.setCompleted "R1" (buildResult {} [c2ar]) ∈
      (perform_reconciliation { publishError := some "publish boom" } c2db "R1" "T1").2.1 ∧
    reconStatus
      (perform_reconciliation { publishError := some "publish boom" } c2db "R1" "T1").1
      "R1" = some .failed ∧
    reconStatus
      (perform_reconciliation { publishError := some "publish boom" } c2db "R1" "T1").1
      "R1" ≠ some .completed := by
  obtain ⟨hs, he, hr, hc, ho⟩ := publish_fail_observables
    { publishError := some "publish boom" } c2db "R1" "T1" cRecon {} [c2ar]
    "publish boom" rfl rfl (by decide) c2_gate_pass c2_alloc_eq rfl
  refine ⟨hc, hs, ?_⟩
  rw [hs]
  decide

/-- Witness for C2 amended on the same store. -/
theorem claim_C2_witness :
    StoreWrite.setCompleted "R1" (buildResult {} [c2ar]) ∈
      (perform_reconciliation { publishError := some "publish boom" } c2db "R1" "T1").2.1 ∧
    reconStatus
      (perform_reconciliation { publishError := some "publish boom" } c2db "R1" "T1").1
      "R1" = some .failed ∧
    reconError
      (perform_reconciliation { publishError := some "publish boom" } c2db "R1" "T1").1
      "R1" = some "publish boom" ∧
    reconResult
      (perform_reconciliation { publishError := some "publish boom" } c2db "R1" "T1").1
      "R1" = some (buildResult {} [c2ar]) ∧
    (perform_reconciliation { publishError := some "publish boom" } c2db "R1" "T1").2.2 =
      .error "publish boom" :=
  claim_C2_amended { publishError := some "publish boom" } c2db "R1" "T1" cRecon {}
    [c2ar] "publish boom" rfl rfl (by decide) c2_gate_pass c2_alloc_eq rfl

/-- The full equation of a run whose gate passes, allocation succeeds and
publish succeeds. -/
theorem publish_ok_run (env : OrchestratorEnv) (db : DB) (rid tid : String)
    (recon : Reconciliation) (tenant : Tenant) (rs : List AllocationResult)
    (h1 : getDoc db.reconciliations rid = some recon)
    (h2 : getDoc db.tenants tid = some tenant)
    (ht : (entriesForPeriod db tid recon.period_start recon.period_end).length ≠ 0)
    (hp : ¬ approvalPct
        (approvedForPeriod db tid recon.period_start recon.period_end).length
        (entriesForPeriod db tid recon.period_start recon.period_end).length < 90)
    (ha : (engFor tenant).allocate_volumes
        (aggregateApproved (db.updateRecon rid fun r => { r with status := .processing })
          (approvedForPeriod db tid recon.period_start recon.period_end))
        recon.terminal_volume = .ok rs)
    (hm : env.publishError = none) :
    perform_reconciliation env db rid tid =
      (completedWrite env (db.updateRecon rid fun r => { r with status := .processing })
        rid (buildResult tenant rs),
       [.setProcessing rid, .setCompleted rid (buildResult tenant rs),
        .publishComplete rid tid],
       .ok ()) := by
  rw [perform_gate_pass env db rid tid recon tenant h1 h2 ht hp,
    runPhase_publish_ok env _ _ rid tid tenant recon _ rs hm ha]
  simp

/-- Re-completing an already completed document with the same inputs
reproduces the document byte for byte. -/
theorem completedRecord_idem (ai : Option String) (now : ℤ)
    (res : ReconciliationResult) (r : Reconciliation) :
    completedRecord ai now res
      { completedRecord ai now res r with status := .processing } =
      completedRecord ai now res r := by
  cases ai <;> rfl

/-- Running the orchestrator a second time over the store left by a first
successful run: the second run recomputes the same result and stores an
identical document, but it is not a no-op: it writes PROCESSING, rewrites
the COMPLETED payload and publishes again. -/
theorem second_run_facts (env : OrchestratorEnv) (db : DB) (rid tid : String)
    (recon : Reconciliation) (tenant : Tenant) (rs : List AllocationResult)
    (h1 : getDoc db.reconciliations rid = some recon)
    (h2 : getDoc db.tenants tid = some tenant)
    (ht : (entriesForPeriod db tid recon.period_start recon.period_end).length ≠ 0)
    (hp : ¬ approvalPct
        (approvedForPeriod db tid recon.period_start recon.period_end).length
        (entriesForPeriod db tid recon.period_start recon.period_end).length < 90)
    (ha : (engFor tenant).allocate_volumes
        (aggregateApproved (db.updateRecon rid fun r => { r with status := .processing })
          (approvedForPeriod db tid recon.period_start recon.period_end))
        recon.terminal_volume = .ok rs)
    (hm : env.publishError = none) :
    getDoc (perform_reconciliation env (perform_reconciliation env db rid tid).1
        rid tid).1.reconciliations rid =
      getDoc (perform_reconciliation env db rid tid).1.reconciliations rid ∧
    reconStatus (perform_reconciliation env db rid tid).1 rid = some .completed ∧
    reconStatus (perform_reconciliation env (perform_reconciliation env db rid tid).1
        rid tid).1 rid = some .completed ∧
    (perform_reconciliation env (perform_reconciliation env db rid tid).1 rid tid).2.1 ≠
      [] := by
  have hrun1 := publish_ok_run env db rid tid recon tenant rs h1 h2 ht hp ha hm
  have h1' : getDoc (perform_reconciliation env db rid tid).1.reconciliations rid =
      some (completedRecord env.aiAnalysis env.now (buildResult tenant rs)
        { recon with status := .processing }) := by
    rw [hrun1]
    unfold completedWrite
    rw [getDoc_updateRecon, getDoc_updateRecon, h1]
    rfl
  have ha' : (engFor tenant).allocate_volumes
      (aggregateApproved
        ((perform_reconciliation env db rid tid).1.updateRecon rid
          fun r => { r with status := .processing })
        (approvedForPeriod (perform_reconciliation env db rid tid).1 tid
          recon.period_start recon.period_end))
      recon.terminal_volume = .ok rs := by
    rw [aggregateApproved_congr
      ((perform_reconciliation env db rid tid).1.updateRecon rid
        fun r => { r with status := .processing })
      (db.updateRecon rid fun r => { r with status := .processing })
      (by rw [hrun1]; rfl)]
    have hentries : approvedForPeriod (perform_reconciliation env db rid tid).1 tid
        recon.period_start recon.period_end =
        approvedForPeriod db tid recon.period_start recon.period_end := by
      rw [hrun1]
      rfl
    rw [hentries]
    exact ha
  have ht' : (entriesForPeriod (perform_reconciliation env db rid tid).1 tid
      recon.period_start recon.period_end).length ≠ 0 := by
    rw [show entriesForPeriod (perform_reconciliation env db rid tid).1 tid
        recon.period_start recon.period_end =
        entriesForPeriod db tid recon.period_start recon.period_end from by rw [hrun1]; rfl]
    exact ht
  have hp' : ¬ approvalPct
      (approvedForPeriod (perform_reconciliation env db rid tid).1 tid
        recon.period_start recon.period_end).length
      (entriesForPeriod (perform_reconciliation env db rid tid).1 tid
        recon.period_start recon.period_end).length < 90 := by
    rw [show entriesForPeriod (perform_reconciliation env db rid tid).1 tid
        recon.period_start recon.period_end =
        entriesForPeriod db tid recon.period_start recon.period_end from by rw [hrun1]; rfl,
      show approvedForPeriod (perform_reconciliation env db rid tid).1 tid
        recon.period_start recon.period_end =
        approvedForPeriod db tid recon.period_start recon.period_end from by rw [hrun1]; rfl]
    exact hp
  have h2' : getDoc (perform_reconciliation env db rid tid).1.tenants tid =
      some tenant := by
    rw [hrun1]
    exact h2
  have hrun2 := publish_ok_run env (perform_reconciliation env db rid tid).1 rid tid
    (completedRecord env.aiAnalysis env.now (buildResult tenant rs)
      { recon with status := .processing })
    tenant rs h1' h2' ht' hp' ha' hm
  refine ⟨?_, ?_, ?_, ?_⟩
  · rw [hrun2, h1']
    unfold completedWrite
    rw [getDoc_updateRecon, getDoc_updateRecon, h1']
    simp only [Option.map_some']
    rw [completedRecord_idem]
  · rw [reconStatus, h1']
    rfl
  · rw [reconStatus, hrun2]
    unfold completedWrite
    rw [getDoc_updateRecon, getDoc_updateRecon, h1']
    rfl
  · rw [hrun2]
    exact fun hcon => List.noConfusion hcon

/-- C5 amended: invoking the orchestrator twice with the same runId over
unchanged stored readings is deterministic: the second invocation stores a
byte-for-byte identical run document (same COMPLETED status, same result
payload); but the second invocation is NOT a no-op or fast-exit: it
re-runs the whole pipeline and repeats the PROCESSING write, the COMPLETED
write and the completion publish (there is no compare-and-set or
already-completed check). -/
theorem claim_C5_amended (env : OrchestratorEnv) (db : DB) (rid tid : String)
    (recon : Reconciliation) (tenant : Tenant) (rs : List AllocationResult)
    (h1 : getDoc db.reconciliations rid = some recon)
    (h2 : getDoc db.tenants tid = some tenant)
    (ht : (entriesForPeriod db tid recon.period_start recon.period_end).length ≠ 0)
    (hp : ¬ approvalPct
        (approvedForPeriod db tid recon.period_start recon.period_end).length
        (entriesForPeriod db tid recon.period_start recon.period_end).length < 90)
    (ha : (engFor tenant).allocate_volumes
        (aggregateApproved (db.updateRecon rid fun r => { r with status := .processing })
          (approvedForPeriod db tid recon.period_start recon.period_end))
        recon.terminal_volume = .ok rs)
    (hm : env.publishError = none) :
    getDoc (perform_reconciliation env (perform_reconciliation env db rid tid).1
        rid tid).1.reconciliations rid =
      getDoc (perform_reconciliation env db rid tid).1.reconciliations rid ∧
    reconStatus (perform_reconciliation env db rid tid).1 rid = some .completed ∧
    reconStatus (perform_reconciliation env (perform_reconciliation env db rid tid).1
        rid tid).1 rid = some .completed ∧
    (perform_reconciliation env (perform_reconciliation env db rid tid).1 rid tid).2.1 ≠
      [] :=
  second_run_facts env db rid tid recon tenant rs h1 h2 ht hp ha hm

/-- C5 counterexample: on the one-entry success store, the first
invocation completes, and the second invocation of the same runId is not a
no-op: it performs store writes again (PROCESSING, COMPLETED, publish). -/
theorem claim_C5_counterexample :
    reconStatus (perform_reconciliation {} c2db "R1" "T1").1 "R1" = some .completed ∧
    (perform_reconciliation {} (perform_reconciliation {} c2db "R1" "T1").1
      "R1" "T1").2.1 ≠ [] := by
  obtain ⟨_, hs, _, hw⟩ := second_run_facts {} c2db "R1" "T1" cRecon {} [c2ar]
    rfl rfl (by decide) c2_gate_pass c2_alloc_eq rfl
  exact ⟨hs, hw⟩

/-- Witness for C5 amended on the one-entry success store. -/
theorem claim_C5_witness :
    getDoc (perform_reconciliation {} (perform_reconciliation {} c2db "R1" "T1").1
        "R1" "T1").1.reconciliations "R1" =
      getDoc (perform_reconciliation {} c2db "R1" "T1").1.reconciliations "R1" ∧
    reconStatus (perform_reconciliation {} c2db "R1" "T1").1 "R1" = some .completed ∧
    reconStatus (perform_reconciliation {} (perform_reconciliation {} c2db "R1" "T1").1
        "R1" "T1").1 "R1" = some .completed ∧
    (perform_reconciliation {} (perform_reconciliation {} c2db "R1" "T1").1
      "R1" "T1").2.1 ≠ [] :=
  claim_C5_amended {} c2db "R1" "T1" cRecon {} [c2ar]
    rfl rfl (by decide) c2_gate_pass c2_alloc_eq rfl

/-! Correctness of the grouping-and-averaging stage. -/

/-- The effect of one grouping iteration on the accumulator of a single
partner key. -/
def accOpt (db : DB) (pid : String) (o : Option PartnerAcc) (e : ProductionEntry) :
    Option PartnerAcc :=
  if e.partner_id = pid then some ((o.getD (initAcc db pid)).bump e) else o

theorem addEntry_entry (db : DB) (m : PartnerMap) (e : ProductionEntry) (pid : String) :
    (addEntry db m e).entry pid = accOpt db pid (m.entry pid) e := by
  unfold addEntry accOpt
  by_cases hp : e.partner_id = pid
  · subst hp
    cases hm : m.entry e.partner_id <;> simp [hm]
  · have hp' : ¬ pid = e.partner_id := fun h => hp h.symm
    cases hm : m.entry e.partner_id <;> simp [hm, hp, hp']

theorem fold_entry (db : DB) (es : List ProductionEntry) (m : PartnerMap)
    (pid : String) :
    (es.foldl (addEntry db) m).entry pid = es.foldl (accOpt db pid) (m.entry pid) := by
  induction es generalizing m with
  | nil => rfl
  | cons e es ih => rw [List.foldl_cons, List.foldl_cons, ih, addEntry_entry]

theorem accOpt_fold_some (db : DB) (pid : String) (es : List ProductionEntry)
    (a : PartnerAcc) :
    es.foldl (accOpt db pid) (some a) =
      some ((es.filter (fun e => e.partner_id == pid)).foldl PartnerAcc.bump a) := by
  induction es generalizing a with
  | nil => rfl
  | cons e es ih =>
    by_cases h : e.partner_id = pid
    · rw [List.foldl_cons,
        show accOpt db pid (some a) e = some (a.bump e) from by
          unfold accOpt
          rw [if_pos h]
          rfl,
        ih]
      simp [List.filter_cons, h]
    · rw [List.foldl_cons,
        show accOpt db pid (some a) e = some a from by
          unfold accOpt
          rw [if_neg h],
        ih]
      simp [List.filter_cons, h]

theorem accOpt_fold_none (db : DB) (pid : String) (es : List ProductionEntry) :
    es.foldl (accOpt db pid) none =
      if (es.filter (fun e => e.partner_id == pid)) = [] then none
      else some ((es.filter (fun e => e.partner_id == pid)).foldl PartnerAcc.bump
        (initAcc db pid)) := by
  induction es with
  | nil => rfl
  | cons e es ih =>
    by_cases h : e.partner_id = pid
    · rw [List.foldl_cons,
        show accOpt db pid none e = some ((initAcc db pid).bump e) from by
          unfold accOpt
          rw [if_pos h]
          rfl,
        accOpt_fold_some]
      simp [List.filter_cons, h]
    · rw [List.foldl_cons,
        show accOpt db pid none e = none from by
          unfold accOpt
          rw [if_neg h],
        ih]
      simp [List.filter_cons, h]

/-- Field-wise description of folding the += lines over a list of entries. -/
theorem bump_fold_fields (fs : List ProductionEntry) (a : PartnerAcc) :
    (fs.foldl PartnerAcc.bump a).partner_id = a.partner_id ∧
    (fs.foldl PartnerAcc.bump a).partner_name = a.partner_name ∧
    (fs.foldl PartnerAcc.bump a).gross_volume =
      a.gross_volume + (fs.map (·.gross_volume)).sum ∧
    (fs.foldl PartnerAcc.bump a).bsw_sum = a.bsw_sum + (fs.map (·.bsw_percent)).sum ∧
    (fs.foldl PartnerAcc.bump a).temp_sum = a.temp_sum + (fs.map (·.temperature)).sum ∧
    (fs.foldl PartnerAcc.bump a).api_sum = a.api_sum + (fs.map (·.api_gravity)).sum ∧
    (fs.foldl PartnerAcc.bump a).count = a.count + fs.length := by
  induction fs generalizing a with
  | nil => simp
  | cons e fs ih =>
    obtain ⟨i1, i2, i3, i4, i5, i6, i7⟩ := ih (a.bump e)
    rw [List.foldl_cons]
    refine ⟨i1, i2, ?_, ?_, ?_, ?_, ?_⟩
    · rw [i3]
      simp only [PartnerAcc.bump, List.map_cons, List.sum_cons]
      ring
    · rw [i4]
      simp only [PartnerAcc.bump, List.map_cons, List.sum_cons]
      ring
    · rw [i5]
      simp only [PartnerAcc.bump, List.map_cons, List.sum_cons]
      ring
    · rw [i6]
      simp only [PartnerAcc.bump, List.map_cons, List.sum_cons]
      ring
    · rw [i7]
      simp only [PartnerAcc.bump, List.length_cons]
      omega

/-- The key-list invariant of the grouping dict: no duplicate keys, and a
key is present exactly when its accumulator exists. -/
def keyInv (m : PartnerMap) : Prop :=
  m.keys.Nodup ∧ ∀ pid, (m.entry pid).isSome ↔ pid ∈ m.keys

theorem addEntry_keyInv (db : DB) (m : PartnerMap) (e : ProductionEntry)
    (h : keyInv m) : keyInv (addEntry db m e) := by
  obtain ⟨hn, hm⟩ := h
  unfold addEntry
  cases he : m.entry e.partner_id with
  | some acc =>
    refine ⟨hn, fun pid => ?_⟩
    by_cases hp : pid = e.partner_id
    · subst hp
      have hmem := (hm e.partner_id).mp (by rw [he]; rfl)
      simp [hmem]
    · simp [hp, hm pid]
  | none =>
    have hnot : e.partner_id ∉ m.keys := by
      intro hc
      have := (hm e.partner_id).mpr hc
      rw [he] at this
      simp at this
    refine ⟨?_, fun pid => ?_⟩
    · simp [List.nodup_append, hn, hnot]
    · by_cases hp : pid = e.partner_id
      · subst hp
        simp
      · simp [hp, hm pid, List.mem_append]

theorem fold_keyInv (db : DB) (es : List ProductionEntry) (m : PartnerMap)
    (h : keyInv m) : keyInv (es.foldl (addEntry db) m) := by
  induction es generalizing m with
  | nil => exact h
  | cons e es ih => exact ih _ (addEntry_keyInv db m e h)

theorem filterMap_entry_keys (keys : List String)
    (entry : String → Option PartnerAcc) (mk : String → PartnerAcc → ProductionData)
    (hmk : ∀ pid d, (mk pid d).partner_id = pid)
    (h : ∀ pid ∈ keys, (entry pid).isSome) :
    ((keys.filterMap fun pid => (entry pid).map (mk pid)).map (·.partner_id)) =
      keys := by
  induction keys with
  | nil => rfl
  | cons k keys ih =>
    obtain ⟨d, hd⟩ := Option.isSome_iff_exists.mp (h k (List.mem_cons_self _ _))
    simp only [List.filterMap_cons, hd, Option.map_some', List.map_cons, hmk]
    rw [ih fun pid hp => h pid (List.mem_cons_of_mem _ hp)]

/-- C8: aggregation groups the entries by partner id, producing exactly
one aggregate per distinct partner; its gross volume is the sum of that
partner's gross volumes, and its BSW, temperature and API gravity are the
simple arithmetic means (field sum divided by entry count) of that
partner's entries. -/
theorem claim_C8_aggregation (db : DB) (es : List ProductionEntry) :
    ((aggregateApproved db es).map (·.partner_id)).Nodup ∧
    (∀ pid, pid ∈ (aggregateApproved db es).map (·.partner_id) ↔
      pid ∈ es.map (·.partner_id)) ∧
    ∀ p ∈ aggregateApproved db es,
      p.gross_volume =
        ((es.filter (fun e => e.partner_id == p.partner_id)).map (·.gross_volume)).sum ∧
      p.bsw_percent =
        ((es.filter (fun e => e.partner_id == p.partner_id)).map (·.bsw_percent)).sum /
          (((es.filter (fun e => e.partner_id == p.partner_id)).length : ℕ) : ℚ) ∧
      p.temperature =
        ((es.filter (fun e => e.partner_id == p.partner_id)).map (·.temperature)).sum /
          (((es.filter (fun e => e.partner_id == p.partner_id)).length : ℕ) : ℚ) ∧
      p.api_gravity =
        ((es.filter (fun e => e.partner_id == p.partner_id)).map (·.api_gravity)).sum /
          (((es.filter (fun e => e.partner_id == p.partner_id)).length : ℕ) : ℚ) := by
  have hInv : keyInv (es.foldl (addEntry db) ⟨[], fun _ => none⟩) :=
    fold_keyInv db es _ ⟨List.nodup_nil, fun pid => by simp⟩
  have hEntry : ∀ pid, (es.foldl (addEntry db) ⟨[], fun _ => none⟩).entry pid =
      if (es.filter (fun e => e.partner_id == pid)) = [] then none
      else some ((es.filter (fun e => e.partner_id == pid)).foldl PartnerAcc.bump
        (initAcc db pid)) := fun pid => by
    rw [fold_entry]
    exact accOpt_fold_none db pid es
  have hmapkeys : (aggregateApproved db es).map (·.partner_id) =
      (es.foldl (addEntry db) ⟨[], fun _ => none⟩).keys :=
    filterMap_entry_keys _ _ _ (fun pid d => rfl)
      (fun pid hp => (hInv.2 pid).mpr hp)
  refine ⟨?_, ?_, ?_⟩
  · rw [hmapkeys]
    exact hInv.1
  · intro pid
    rw [hmapkeys, ← hInv.2 pid, hEntry pid]
    by_cases hf : es.filter (fun e => e.partner_id == pid) = []
    · simp only [hf, if_pos]
      have hno : ∀ e ∈ es, ¬ e.partner_id = pid := by
        intro e he
        have := (List.filter_eq_nil_iff.mp hf) e he
        simpa using this
      simp only [Option.isSome_none, List.mem_map]
      constructor
      · intro hfalse
        cases hfalse
      · rintro ⟨e, he, hpe⟩
        exact absurd hpe (hno e he)
    · simp only [hf, if_neg, Option.isSome_some, List.mem_map]
      have : ∃ e ∈ es, e.partner_id = pid := by
        obtain ⟨e, he⟩ := List.exists_mem_of_ne_nil _ hf
        have hmem := List.mem_filter.mp he
        exact ⟨e, hmem.1, by simpa using hmem.2⟩
      simp [this]
  · intro p hp
    obtain ⟨pid, hpidmem, hf⟩ := List.mem_filterMap.mp hp
    obtain ⟨d, hd, hmk⟩ := Option.map_eq_some'.mp hf
    rw [hEntry pid] at hd
    by_cases hfe : es.filter (fun e => e.partner_id == pid) = []
    · rw [if_pos hfe] at hd
      cases hd
    · rw [if_neg hfe] at hd
      injection hd with hd
      subst hmk
      obtain ⟨_, _, g3, g4, g5, g6, g7⟩ :=
        bump_fold_fields (es.filter (fun e => e.partner_id == pid)) (initAcc db pid)
      rw [hd] at g3 g4 g5 g6 g7
      refine ⟨?_, ?_, ?_, ?_⟩
      · show d.gross_volume =
          ((es.filter (fun e => e.partner_id == pid)).map (·.gross_volume)).sum
        rw [g3]
        simp [initAcc]
      · show d.bsw_sum / (d.count : ℚ) =
          ((es.filter (fun e => e.partner_id == pid)).map (·.bsw_percent)).sum /
            (((es.filter (fun e => e.partner_id == pid)).length : ℕ) : ℚ)
        rw [g4, g7]
        simp [initAcc]
      · show d.temp_sum / (d.count : ℚ) =
          ((es.filter (fun e => e.partner_id == pid)).map (·.temperature)).sum /
            (((es.filter (fun e => e.partner_id == pid)).length : ℕ) : ℚ)
        rw [g5, g7]
        simp [initAcc]
      · show d.api_sum / (d.count : ℚ) =
          ((es.filter (fun e => e.partner_id == pid)).map (·.api_gravity)).sum /
            (((es.filter (fun e => e.partner_id == pid)).length : ℕ) : ℚ)
        rw [g6, g7]
        simp [initAcc]

/-- A second approved entry of the same partner, for the C8 witness. -/
def c8EntryB : ProductionEntry :=
  { cEntryA with gross_volume := 200, bsw_percent := 10, temperature := 70,
                 api_gravity := 40 }

def c8es : List ProductionEntry := [cEntryA, c8EntryB]

/-- The aggregate of the two c8 entries: summed gross, averaged fields. -/
def c8Agg : ProductionData :=
  { partner_id := "p1", partner_name := "Partner p1", gross_volume := 300,
    bsw_percent := 5, temperature := 65, api_gravity := (37.5 : ℚ) }

theorem c8_agg_eq : aggregateApproved c2db c8es = [c8Agg] := by
  have hname : resolvePartnerName c2db "p1" = "Partner p1" := by decide
  norm_num [aggregateApproved, addEntry, initAcc, PartnerAcc.bump, hname, c8es,
    cEntryA, c8EntryB, c8Agg, List.foldl, List.filterMap]

/-- Witness for C8 on the two-entry store: summed gross volume and
arithmetic means. -/
theorem claim_C8_witness :
    c8Agg.gross_volume =
      ((c8es.filter (fun e => e.partner_id == c8Agg.partner_id)).map
        (·.gross_volume)).sum ∧
    c8Agg.bsw_percent =
      ((c8es.filter (fun e => e.partner_id == c8Agg.partner_id)).map
        (·.bsw_percent)).sum /
        (((c8es.filter (fun e => e.partner_id == c8Agg.partner_id)).length : ℕ) : ℚ) ∧
    c8Agg.temperature =
      ((c8es.filter (fun e => e.partner_id == c8Agg.partner_id)).map
        (·.temperature)).sum /
        (((c8es.filter (fun e => e.partner_id == c8Agg.partner_id)).length : ℕ) : ℚ) ∧
    c8Agg.api_gravity =
      ((c8es.filter (fun e => e.partner_id == c8Agg.partner_id)).map
        (·.api_gravity)).sum /
        (((c8es.filter (fun e => e.partner_id == c8Agg.partner_id)).length : ℕ) : ℚ) :=
  (claim_C8_aggregation c2db c8es).2.2 c8Agg
    (by rw [c8_agg_eq]; exact List.mem_singleton.mpr rfl)
